import Mathlib

/-!
Shallow embedding of `src/app.py` (OverlandListener): an HTTP ingestion
endpoint that authenticates a shared-secret token, validates a JSON payload,
and persists it to a filesystem or object-storage backend.  Python strings
are modelled as Lean `String` / `List Char`, byte strings as `List Nat`,
32-bit machine words as `Nat` reduced modulo `2 ^ 32`, and ambient effects
(the clock, storage-operation outcomes) as explicit parameters.
-/

namespace Overland

/-- Python `str.strip()` / `str.strip(chars)`: drop the longest run of
characters satisfying `p` from both ends of the character list. -/
def stripList (p : Char → Bool) (l : List Char) : List Char :=
  ((l.dropWhile p).reverse.dropWhile p).reverse

/-- Python `str.strip()` (whitespace at both ends) on a string. -/
def pyStripWs (s : String) : String :=
  String.mk (stripList Char.isWhitespace s.data)

/-- Python `str.strip("/")` on a string. -/
def pyStripSlash (s : String) : String :=
  String.mk (stripList (fun c => c == '/') s.data)

/-- Python truthiness of an optional string: `None` and `""` are falsy. -/
def truthyOpt : Option String → Bool
  | none => false
  | some s => !(s == "")

/-- Exceptions raised by the Python code and its libraries, as far as the
handler and startup check distinguish them. -/
inductive PyError where
  | jsonDecodeError
  | valueError (msg : String)
  | runtimeError (msg : String)
  | fileNotFoundError
  | ioError (msg : String)
  | clientError (msg : String)
deriving DecidableEq

/-- JSON values, as produced by `request.json()`.  Numeric values are
modelled as integers; the payload is opaque to the program, so the numeric
representation never matters for the claims. -/
inductive Json where
  | null
  | bool (b : Bool)
  | num (n : Int)
  | str (s : String)
  | arr (xs : List Json)
  | obj (kvs : List (String × Json))

/-- Decimal digit characters. -/
def decDigitsList : List Char :=
  ['0', '1', '2', '3', '4', '5', '6', '7', '8', '9']

/-- Lowercase hexadecimal digit characters: the ten decimal digits
followed by `a`-`f`. -/
def hexDigitsList : List Char :=
  decDigitsList ++ ['a', 'b', 'c', 'd', 'e', 'f']

/-- The decimal digit character for `n` (callers keep `n < 10`). -/
def decChar (n : Nat) : Char := decDigitsList.getD n '0'

/-- The lowercase hex digit character for `n` (callers keep `n < 16`). -/
def hexChar (n : Nat) : Char := hexDigitsList.getD n '0'

/-- Decimal digit list of a natural number, most significant digit first,
as produced by Python `str`/f-string formatting of a nonnegative `int`. -/
def natDecDigits (n : Nat) : List Char :=
  if _h : n < 10 then [decChar n]
  else natDecDigits (n / 10) ++ [decChar (n % 10)]
  decreasing_by exact Nat.div_lt_self (by omega) (by omega)

/-- Python decimal rendering of an `int` (possible leading minus sign). -/
def intDecimal (n : Int) : List Char :=
  if n < 0 then '-' :: natDecDigits n.natAbs else natDecDigits n.toNat

/-- `json.dumps` escaping of one character (`ensure_ascii=False`): quote,
backslash and C0 control characters are escaped, everything else is kept. -/
def escChar (c : Char) : List Char :=
  if c = '"' then ['\\', '"']
  else if c = '\\' then ['\\', '\\']
  else if c = '\n' then ['\\', 'n']
  else if c = '\r' then ['\\', 'r']
  else if c = '\t' then ['\\', 't']
  else if c = '\x08' then ['\\', 'b']
  else if c = '\x0c' then ['\\', 'f']
  else if c.toNat < 32 then
    ['\\', 'u', '0', '0', hexChar (c.toNat / 16), hexChar (c.toNat % 16)]
  else [c]

/-- `json.dumps` escaping of a character list. -/
def escList : List Char → List Char
  | [] => []
  | c :: cs => escChar c ++ escList cs

/-- A JSON string literal: quotes around the escaped content. -/
def quoteStr (s : String) : String :=
  "\"" ++ String.mk (escList s.data) ++ "\""

mutual

/-- `compact_json(d)`: `json.dumps(d, separators=(",", ":"),
ensure_ascii=False)` — the compact serialization with no whitespace
(`src/app.py` lines 47-48). -/
def compact_json : Json → String
  | Json.null => "null"
  | Json.bool true => "true"
  | Json.bool false => "false"
  | Json.num n => String.mk (intDecimal n)
  | Json.str s => quoteStr s
  | Json.arr xs => "[" ++ compactArr xs ++ "]"
  | Json.obj kvs => "\x7b" ++ compactObj kvs ++ "\x7d"

/-- Comma-separated compact serialization of array elements. -/
def compactArr : List Json → String
  | [] => ""
  | [x] => compact_json x
  | x :: y :: xs => compact_json x ++ "," ++ compactArr (y :: xs)

/-- Comma-separated compact serialization of object members
(`"key":value`, with `:` as the key separator). -/
def compactObj : List (String × Json) → String
  | [] => ""
  | [(k, v)] => quoteStr k ++ ":" ++ compact_json v
  | (k, v) :: kv :: xs =>
      quoteStr k ++ ":" ++ compact_json v ++ "," ++ compactObj (kv :: xs)

end

/-- UTF-8 encoding of one character (Python `str.encode("utf-8")`). -/
def utf8EncodeChar (c : Char) : List Nat :=
  let n := c.toNat
  if n < 128 then [n]
  else if n < 2048 then [192 + n / 64, 128 + n % 64]
  else if n < 65536 then [224 + n / 4096, 128 + n / 64 % 64, 128 + n % 64]
  else [240 + n / 262144, 128 + n / 4096 % 64, 128 + n / 64 % 64, 128 + n % 64]

/-- UTF-8 encoding of a string as a byte list. -/
def utf8Encode (s : String) : List Nat :=
  (s.data.map utf8EncodeChar).flatten

/-! ### SHA-256 (`hashlib.sha256(...).hexdigest()`), over `Nat` words -/

/-- Reduce to a 32-bit word. -/
def w32 (n : Nat) : Nat := n % 4294967296

/-- Right rotation of a 32-bit word by `k` bits. -/
def rotr32 (k x : Nat) : Nat := w32 ((x >>> k) ||| (x <<< (32 - k)))

/-- Bitwise complement of a 32-bit word. -/
def not32 (x : Nat) : Nat := 4294967295 ^^^ x

/-- SHA-256 `Ch(e, f, g)`. -/
def sha256ch (e f g : Nat) : Nat := (e &&& f) ^^^ (not32 e &&& g)

/-- SHA-256 `Maj(a, b, c)`. -/
def sha256maj (a b c : Nat) : Nat := (a &&& b) ^^^ (a &&& c) ^^^ (b &&& c)

/-- SHA-256 `Σ0`. -/
def bigSigma0 (x : Nat) : Nat := rotr32 2 x ^^^ rotr32 13 x ^^^ rotr32 22 x

/-- SHA-256 `Σ1`. -/
def bigSigma1 (x : Nat) : Nat := rotr32 6 x ^^^ rotr32 11 x ^^^ rotr32 25 x

/-- SHA-256 `σ0`. -/
def smallSigma0 (x : Nat) : Nat := rotr32 7 x ^^^ rotr32 18 x ^^^ (x >>> 3)

/-- SHA-256 `σ1`. -/
def smallSigma1 (x : Nat) : Nat := rotr32 17 x ^^^ rotr32 19 x ^^^ (x >>> 10)

/-- The 64 SHA-256 round constants (decimal rendering of the standard
words derived from the cube roots of the first 64 primes). -/
def sha256k : List Nat :=
  [1116352408, 1899447441, 3049323471, 3921009573,
   961987163, 1508970993, 2453635748, 2870763221,
   3624381080, 310598401, 607225278, 1426881987,
   1925078388, 2162078206, 2614888103, 3248222580,
   3835390401, 4022224774, 264347078, 604807628,
   770255983, 1249150122, 1555081692, 1996064986,
   2554220882, 2821834349, 2952996808, 3210313671,
   3336571891, 3584528711, 113926993, 338241895,
   666307205, 773529912, 1294757372, 1396182291,
   1695183700, 1986661051, 2177026350, 2456956037,
   2730485921, 2820302411, 3259730800, 3345764771,
   3516065817, 3600352804, 4094571909, 275423344,
   430227734, 506948616, 659060556, 883997877,
   958139571, 1322822218, 1537002063, 1747873779,
   1955562222, 2024104815, 2227730452, 2361852424,
   2428436474, 2756734187, 3204031479, 3329325298]

/-- The eight 32-bit words of a SHA-256 hash state. -/
structure Hash8 where
  a : Nat
  b : Nat
  c : Nat
  d : Nat
  e : Nat
  f : Nat
  g : Nat
  h : Nat

/-- The SHA-256 initial hash value (decimal rendering of the standard
words derived from the square roots of the first 8 primes). -/
def sha256init : Hash8 :=
  ⟨1779033703, 3144134277, 1013904242, 2773480762,
   1359893119, 2600822924, 528734635, 1541459225⟩

/-- One SHA-256 compression round; `kw` is `K[i] + W[i]` mod `2 ^ 32`. -/
def sha256round (st : Hash8) (kw : Nat) : Hash8 :=
  let t1 := w32 (st.h + bigSigma1 st.e + sha256ch st.e st.f st.g + kw)
  let t2 := w32 (bigSigma0 st.a + sha256maj st.a st.b st.c)
  ⟨w32 (t1 + t2), st.a, st.b, st.c, w32 (st.d + t1), st.e, st.f, st.g⟩

/-- Extend the (reversed) message schedule by `k` further words. -/
def extendWords : Nat → List Nat → List Nat
  | 0, acc => acc.reverse
  | k + 1, acc =>
      let w := w32 (smallSigma1 (acc.getD 1 0) + acc.getD 6 0 +
                    smallSigma0 (acc.getD 14 0) + acc.getD 15 0)
      extendWords k (w :: acc)

/-- The 64-entry SHA-256 message schedule of one 16-word block. -/
def msgSchedule (block : List Nat) : List Nat :=
  extendWords 48 block.reverse

/-- Compress one 16-word block into the hash state. -/
def sha256block (hv : Hash8) (block : List Nat) : Hash8 :=
  let kws := List.zipWith (fun k w => w32 (k + w)) sha256k (msgSchedule block)
  let st := kws.foldl sha256round hv
  ⟨w32 (hv.a + st.a), w32 (hv.b + st.b), w32 (hv.c + st.c), w32 (hv.d + st.d),
   w32 (hv.e + st.e), w32 (hv.f + st.f), w32 (hv.g + st.g), w32 (hv.h + st.h)⟩

/-- `k` big-endian bytes of `n`. -/
def toBEBytes : Nat → Nat → List Nat
  | 0, _ => []
  | k + 1, n => ((n >>> (8 * k)) % 256) :: toBEBytes k n

/-- SHA-256 padding: append `0x80`, zero bytes to 56 mod 64, then the
bit length as 8 big-endian bytes. -/
def sha256pad (msg : List Nat) : List Nat :=
  let z := (120 - ((msg.length + 1) % 64)) % 64
  msg ++ 0x80 :: List.replicate z 0 ++ toBEBytes 8 (8 * msg.length)

/-- Group bytes into big-endian 32-bit words. -/
def bytesToWords : List Nat → List Nat
  | b0 :: b1 :: b2 :: b3 :: rest =>
      (((b0 * 256 + b1) * 256 + b2) * 256 + b3) :: bytesToWords rest
  | _ => []

/-- Split a word list into 16-word blocks. -/
def chunks16 (l : List Nat) : List (List Nat) :=
  if l.isEmpty then [] else l.take 16 :: chunks16 (l.drop 16)
  termination_by l.length
  decreasing_by
    rename_i h
    simp only [List.length_drop]
    have : 0 < l.length := List.length_pos.mpr (by simpa using h)
    omega

/-- The SHA-256 hash state of a byte-string message. -/
def sha256words (msg : List Nat) : Hash8 :=
  (chunks16 (bytesToWords (sha256pad msg))).foldl sha256block sha256init

/-- The 32 digest bytes of a hash state, big-endian per word. -/
def hash8bytes (hv : Hash8) : List Nat :=
  toBEBytes 4 hv.a ++ toBEBytes 4 hv.b ++ toBEBytes 4 hv.c ++ toBEBytes 4 hv.d ++
  toBEBytes 4 hv.e ++ toBEBytes 4 hv.f ++ toBEBytes 4 hv.g ++ toBEBytes 4 hv.h

/-- Lowercase hex rendering of a byte list, two digits per byte. -/
def bytesToHex : List Nat → List Char
  | [] => []
  | b :: bs => hexChar (b / 16 % 16) :: hexChar (b % 16) :: bytesToHex bs

/-- `hashlib.sha256(msg).hexdigest()` as a character list. -/
def sha256hex (msg : List Nat) : List Char :=
  bytesToHex (hash8bytes (sha256words msg))

/-! ### Record naming and configuration (`src/app.py` lines 7-68) -/

/-- The character list `".json"`. -/
def jsonSuffix : List Char := ['.', 'j', 's', 'o', 'n']

/-- `make_name(payload)` (`src/app.py` lines 51-54):
`f"{now_ms}-{h}.json"` with `h = sha256(compact_json(payload).encode("utf-8"))
.hexdigest()[:8]`.  The ambient clock `int(time.time() * 1000)` is passed in
as the explicit parameter `nowMs`. -/
def make_name (nowMs : Nat) (payload : Json) : String :=
  String.mk (natDecDigits nowMs ++ '-' ::
    ((sha256hex (utf8Encode (compact_json payload))).take 8 ++ jsonSuffix))

/-- The resolved process configuration (`src/app.py` lines 7-13).  Optional
environment variables are `Option String` (`none` = unset); `S3_PFX` holds
the already-stripped value of `S3_PREFIX` exactly as the module-level
assignment computes it. -/
structure Config where
  STORAGE_BACKEND : String
  LOG_DIR : String
  TOKEN : Option String
  AUTH_SECRET : Option String
  S3_BUCKET : Option String
  S3_PFX : String

/-- Python `str.lower()` (ASCII case mapping), character by character. -/
def pyLower (s : String) : String :=
  String.mk (s.data.map Char.toLower)

/-- `os.getenv("STORAGE_BACKEND", "filesystem").strip().lower()`
(`src/app.py` line 7). -/
def resolve_backend (raw : Option String) : String :=
  pyLower (pyStripWs (raw.getD "filesystem"))

/-- `os.getenv("S3_PREFIX", "").strip().strip("/")` (`src/app.py` line 13). -/
def resolve_pfx (raw : Option String) : String :=
  pyStripSlash (pyStripWs (raw.getD ""))

/-- `s3_key_for(name)` (`src/app.py` lines 66-68): prepend the configured
(already stripped) key namespace when it is truthy. -/
def s3_key_for (pfx : String) (name : String) : String :=
  let base := "requests/" ++ name
  if pfx = "" then base else pfx ++ "/" ++ base

/-! ### Storage writes as explicit operation traces -/

/-- One side-effecting storage operation issued by the program. -/
inductive StorageOp where
  | fsMkdir (path : String)
  | fsWrite (path : String) (content : String)
  | s3Put (bucket : String) (key : String) (content : String) (contentType : String)
  | s3Delete (bucket : String) (key : String)
deriving DecidableEq

/-- `fs_write_request(payload)` (`src/app.py` lines 57-63): ensure the
`requests/` directory, then write the compact serialization to
`<LOG_DIR>/requests/<make_name(payload)>`. -/
def fs_write_request (cfg : Config) (nowMs : Nat) (payload : Json) : List StorageOp :=
  let req_dir := cfg.LOG_DIR ++ "/requests"
  let name := make_name nowMs payload
  [StorageOp.fsMkdir req_dir,
   StorageOp.fsWrite (req_dir ++ "/" ++ name) (compact_json payload)]

/-- `s3_write_request(payload)` (`src/app.py` lines 71-81): one
`put_object` of the compact serialization with content type
`application/json`. -/
def s3_write_request (cfg : Config) (nowMs : Nat) (payload : Json) : List StorageOp :=
  let name := make_name nowMs payload
  let key := s3_key_for cfg.S3_PFX name
  [StorageOp.s3Put (cfg.S3_BUCKET.getD "") key (compact_json payload) "application/json"]

/-- `write_request(payload)` (`src/app.py` lines 84-90): dispatch on
`STORAGE_BACKEND == "s3"`, raising `RuntimeError` when the bucket is not
set; every other backend value takes the filesystem branch. -/
def write_request (cfg : Config) (nowMs : Nat) (payload : Json) :
    Except PyError (List StorageOp) :=
  if cfg.STORAGE_BACKEND = "s3" then
    if truthyOpt cfg.S3_BUCKET then Except.ok (s3_write_request cfg nowMs payload)
    else Except.error (PyError.runtimeError "S3_BUCKET not set")
  else Except.ok (fs_write_request cfg nowMs payload)

/-! ### The request handler (`src/app.py` lines 171-193) -/

/-- An inbound `POST /api/input` request: the `token` query parameter, the
`Authorization` header, and the result of `await request.json()`
(`none` when the body fails to parse as JSON). -/
structure Req where
  queryToken : Option String
  authHeader : Option String
  parsedBody : Option Json

/-- An HTTP response: status code plus body text (for error statuses the
body holds the `HTTPException` detail string). -/
structure Resp where
  status : Nat
  body : String
deriving DecidableEq

/-- The query-token gate (`src/app.py` lines 173-175): the request passes
iff `TOKEN` is truthy and the stripped `token` query parameter equals it. -/
def token_check (cfg : Config) (req : Req) : Bool :=
  match cfg.TOKEN with
  | none => false
  | some t => if t = "" then false else pyStripWs (req.queryToken.getD "") == t

/-- The optional `Authorization` gate (`src/app.py` lines 177-180): when
`AUTH_SECRET` is truthy, the stripped header must equal the secret or
`"Bearer " + secret`. -/
def auth_header_check (cfg : Config) (req : Req) : Bool :=
  match cfg.AUTH_SECRET with
  | none => true
  | some s =>
      if s = "" then true
      else
        let a := pyStripWs (req.authHeader.getD "")
        a == s || a == "Bearer " ++ s

/-- `isinstance(payload, dict) and "locations" in payload`
(`src/app.py` line 184). -/
def isObjWithLocations : Json → Bool
  | Json.obj kvs => kvs.any (fun kv => kv.1 == "locations")
  | _ => false

/-- The payload checks inside the handler's `try` block (`src/app.py`
lines 182-185): a parse failure is the JSON library's decode error, and a
non-`dict` payload or a `dict` without the key `"locations"` raises
`ValueError("missing locations")`. -/
def validate_payload (body : Option Json) : Except PyError Json :=
  match body with
  | none => Except.error PyError.jsonDecodeError
  | some p =>
      if isObjWithLocations p then Except.ok p
      else Except.error (PyError.valueError "missing locations")

/-- The exact success acknowledgment body `JSONResponse({"result": "ok"})`
renders: the compact serialization of the object. -/
def okBody : String := compact_json (Json.obj [("result", Json.str "ok")])

/-- `input_endpoint(request)` (`src/app.py` lines 171-193).  Returns the
HTTP response together with the trace of storage operations performed.
The `except Exception` wrapper turns every payload failure into
`HTTPException(400, "invalid JSON")`; an uncaught `write_request` error
becomes the framework's 500 response. -/
def input_endpoint (cfg : Config) (req : Req) (nowMs : Nat) : Resp × List StorageOp :=
  if !(token_check cfg req) then (⟨401, "bad token"⟩, [])
  else if !(auth_header_check cfg req) then (⟨401, "bad authorization"⟩, [])
  else
    match validate_payload req.parsedBody with
    | Except.error _ => (⟨400, "invalid JSON"⟩, [])
    | Except.ok payload =>
        match write_request cfg nowMs payload with
        | Except.error _ => (⟨500, "Internal Server Error"⟩, [])
        | Except.ok ops => (⟨200, okBody⟩, ops)

/-! ### Startup health check (`src/app.py` lines 93-128, 142-146) -/

/-- Outcomes of the external object-storage client calls made by the
startup check (put then delete of the probe object). -/
structure S3Env where
  putResult : Except PyError Unit
  deleteResult : Except PyError Unit

/-- Outcomes of the filesystem calls made by the startup check
(mkdir, probe write, probe unlink). -/
structure FsEnv where
  mkdirResult : Except PyError Unit
  writeResult : Except PyError Unit
  unlinkResult : Except PyError Unit

/-- `startup_write_check()` (`src/app.py` lines 93-128).  In the `s3`
branch the `try` block spans both `put_object` and `delete_object` and the
`except` handler re-`raise`s, so either failure propagates.  In the
filesystem branch `mkdir` and `write_bytes` failures propagate, and only
`FileNotFoundError` from `unlink` is swallowed. -/
def startup_write_check (cfg : Config) (s3e : S3Env) (fse : FsEnv) :
    Except PyError Unit :=
  if cfg.STORAGE_BACKEND = "s3" then
    if !(truthyOpt cfg.S3_BUCKET) then
      Except.error (PyError.runtimeError "S3_BUCKET not set for s3 backend")
    else
      match s3e.putResult with
      | Except.error e => Except.error e
      | Except.ok _ =>
          match s3e.deleteResult with
          | Except.error e => Except.error e
          | Except.ok _ => Except.ok ()
  else
    match fse.mkdirResult with
    | Except.error e => Except.error e
    | Except.ok _ =>
        match fse.writeResult with
        | Except.error e => Except.error e
        | Except.ok _ =>
            match fse.unlinkResult with
            | Except.error PyError.fileNotFoundError => Except.ok ()
            | Except.error e => Except.error e
            | Except.ok _ => Except.ok ()

/-- `on_startup()` (`src/app.py` lines 142-146): optional debug logging
(no effect on the outcome) followed by the startup write check. -/
def on_startup (cfg : Config) (s3e : S3Env) (fse : FsEnv) : Except PyError Unit :=
  startup_write_check cfg s3e fse

/-- Modelled from the spec: the FastAPI/uvicorn lifecycle contract that a
failing `@app.on_event("startup")` handler aborts startup, so the process
reaches the request-serving state iff `on_startup` succeeds.  The framework
itself is an external collaborator, not part of `src/`. -/
def reaches_serving (cfg : Config) (s3e : S3Env) (fse : FsEnv) : Bool :=
  match on_startup cfg s3e fse with
  | Except.ok _ => true
  | Except.error _ => false

/-! ### Trace observations used by the claims -/

/-- The payload contents of the record writes in a trace (filesystem file
writes and object-storage puts). -/
def recordWrites (ops : List StorageOp) : List String :=
  ops.filterMap fun op =>
    match op with
    | StorageOp.fsWrite _ content => some content
    | StorageOp.s3Put _ _ content _ => some content
    | _ => none

/-- Whether a trace contains an object-storage put. -/
def usesS3 (ops : List StorageOp) : Bool :=
  ops.any fun op =>
    match op with
    | StorageOp.s3Put _ _ _ _ => true
    | _ => false

/-- Whether a trace contains a filesystem record write. -/
def usesFs (ops : List StorageOp) : Bool :=
  ops.any fun op =>
    match op with
    | StorageOp.fsWrite _ _ => true
    | _ => false

/-! ### The identifier pattern `^\d+-[0-9a-f]\x7b8\x7d\.json$` -/

/-- Membership in the regex class `[0-9a-f]`. -/
def isHexLowerChar (c : Char) : Bool :=
  (('0' ≤ c) && (c ≤ '9')) || (('a' ≤ c) && (c ≤ 'f'))

/-- Decides the anchored regex `^\d+-[0-9a-f]\x7b8\x7d\.json$`: one or more
decimal digits, a dash, exactly eight lowercase hex digits, then `.json`. -/
def matchesNamePattern (s : String) : Bool :=
  let cs := s.data
  let ds := cs.takeWhile Char.isDigit
  let rest := cs.dropWhile Char.isDigit
  !ds.isEmpty &&
    match rest with
    | '-' :: r =>
        ((r.take 8).length == 8) && (r.take 8).all isHexLowerChar &&
          (r.drop 8 == jsonSuffix)
    | _ => false

/-! ### Supporting lemmas -/

theorem decChar_isDigit (n : Nat) : (decChar n).isDigit = true := by
  by_cases h : n < 10
  · exact (by decide : ∀ m, m < 10 → (decChar m).isDigit = true) n h
  · unfold decChar
    rw [List.getD_eq_default]
    · decide
    · simp [decDigitsList]; omega

theorem hexChar_isHexLower (n : Nat) : isHexLowerChar (hexChar n) = true := by
  by_cases h : n < 16
  · exact (by decide : ∀ m, m < 16 → isHexLowerChar (hexChar m) = true) n h
  · unfold hexChar
    rw [List.getD_eq_default]
    · decide
    · simp [hexDigitsList, decDigitsList]; omega

theorem natDecDigits_ne_nil (n : Nat) : natDecDigits n ≠ [] := by
  unfold natDecDigits
  split <;> simp

theorem natDecDigits_all_digits (n : Nat) :
    ∀ c ∈ natDecDigits n, c.isDigit = true := by
  induction n using Nat.strong_induction_on with
  | _ n ih =>
    unfold natDecDigits
    split
    · intro c hc
      rw [List.mem_singleton] at hc
      subst hc
      exact decChar_isDigit n
    · intro c hc
      rw [List.mem_append] at hc
      rcases hc with hc | hc
      · exact ih (n / 10) (Nat.div_lt_self (by omega) (by omega)) c hc
      · rw [List.mem_singleton] at hc
        subst hc
        exact decChar_isDigit (n % 10)

theorem bytesToHex_all_hex (bs : List Nat) :
    ∀ c ∈ bytesToHex bs, isHexLowerChar c = true := by
  induction bs with
  | nil => simp [bytesToHex]
  | cons b bs ih =>
    intro c hc
    simp only [bytesToHex, List.mem_cons] at hc
    rcases hc with hc | hc | hc
    · subst hc; exact hexChar_isHexLower _
    · subst hc; exact hexChar_isHexLower _
    · exact ih c hc

theorem bytesToHex_length (bs : List Nat) :
    (bytesToHex bs).length = 2 * bs.length := by
  induction bs with
  | nil => rfl
  | cons b bs ih => simp [bytesToHex, ih]; omega

theorem hash8bytes_length (hv : Hash8) : (hash8bytes hv).length = 32 := rfl

theorem sha256hex_length (msg : List Nat) : (sha256hex msg).length = 64 := by
  unfold sha256hex
  rw [bytesToHex_length, hash8bytes_length]

/-- Splitting `takeWhile`/`dropWhile` at the first failing element. -/
theorem takeWhile_dropWhile_split {p : Char → Bool} :
    ∀ (l1 : List Char) (c : Char) (l2 : List Char),
      (∀ a ∈ l1, p a = true) → p c = false →
      (l1 ++ c :: l2).takeWhile p = l1 ∧ (l1 ++ c :: l2).dropWhile p = c :: l2 := by
  intro l1
  induction l1 with
  | nil =>
    intro c l2 _ hc
    simp [List.takeWhile_cons, List.dropWhile_cons, hc]
  | cons a t ih =>
    intro c l2 h hc
    have ha : p a = true := h a (List.mem_cons_self a t)
    have ht := ih c l2 (fun x hx => h x (List.mem_cons_of_mem a hx)) hc
    simp [List.takeWhile_cons, List.dropWhile_cons, ha, ht.1, ht.2]

/-- The head of a `dropWhile` result never satisfies the predicate. -/
theorem dropWhile_head_not {p : Char → Bool} :
    ∀ (l : List Char) (c : Char), (l.dropWhile p).head? = some c → p c = false := by
  intro l
  induction l with
  | nil => intro c h; simp at h
  | cons a t ih =>
    intro c h
    rw [List.dropWhile_cons] at h
    by_cases hp : p a
    · rw [if_pos hp] at h
      exact ih c h
    · rw [if_neg hp] at h
      simp only [List.head?_cons, Option.some.injEq] at h
      subst h
      exact Bool.eq_false_iff.mpr hp

/-- The first character of a both-ends strip never satisfies the
predicate. -/
theorem stripList_head (p : Char → Bool) (l : List Char) (c : Char)
    (h : (stripList p l).head? = some c) : p c = false := by
  unfold stripList at h
  have h1 : (l.dropWhile p).reverse.takeWhile p ++ (l.dropWhile p).reverse.dropWhile p
      = (l.dropWhile p).reverse :=
    List.takeWhile_append_dropWhile p (l.dropWhile p).reverse
  have hdecomp : l.dropWhile p =
      ((l.dropWhile p).reverse.dropWhile p).reverse ++
        ((l.dropWhile p).reverse.takeWhile p).reverse := by
    conv_lhs => rw [← List.reverse_reverse (l.dropWhile p), ← h1]
    rw [List.reverse_append]
  have hmem : (l.dropWhile p).head? = some c := by
    rw [hdecomp, List.head?_append, h, Option.or]
  exact dropWhile_head_not l c hmem

/-- The last character of a both-ends strip never satisfies the
predicate. -/
theorem stripList_last (p : Char → Bool) (l : List Char) (c : Char)
    (h : (stripList p l).getLast? = some c) : p c = false := by
  unfold stripList at h
  rw [List.getLast?_reverse] at h
  exact dropWhile_head_not _ c h

/-! ### Concrete fixtures used by witnesses and counterexamples -/

/-- A minimal payload containing the `locations` key. -/
def pLoc : Json := Json.obj [("locations", Json.arr [])]

/-- A JSON-object payload lacking the `locations` key. -/
def pNoLoc : Json := Json.obj [("foo", Json.null)]

/-- Filesystem-backend configuration with token `tok` and no header
secret. -/
def cfgFs : Config := ⟨"filesystem", "/data", some "tok", none, none, ""⟩

/-- Filesystem-backend configuration with an unset `INGEST_TOKEN`. -/
def cfgNoTok : Config := ⟨"filesystem", "/data", none, none, none, ""⟩

/-- Filesystem-backend configuration with both secrets configured. -/
def cfgAuth : Config := ⟨"filesystem", "/data", some "tok", some "sec", none, ""⟩

/-- Object-storage configuration (`STORAGE_BACKEND=s3`) with a bucket. -/
def cfgS3 : Config := ⟨"s3", "/data", some "tok", none, some "bkt", ""⟩

/-- Object-storage configuration (`STORAGE_BACKEND=s3`) without a bucket. -/
def cfgS3NoBucket : Config := ⟨"s3", "/data", some "tok", none, none, ""⟩

/-- Configuration resolved from the environment value
`STORAGE_BACKEND=object-storage`, with a bucket set. -/
def cfgObjStorage : Config :=
  ⟨resolve_backend (some "object-storage"), "/data", some "tok", none, some "bkt", ""⟩

/-- A request with the correct token and a valid payload. -/
def reqOk : Req := ⟨some "tok", none, some pLoc⟩

/-- A request with the correct token whose body is an object without
`locations`. -/
def reqNoLoc : Req := ⟨some "tok", none, some pNoLoc⟩

/-- A request with the correct token and a `Bearer` authorization header. -/
def reqAuth : Req := ⟨some "tok", some "Bearer sec", some pLoc⟩

/-- All storage calls succeed (object storage). -/
def s3eOk : S3Env := ⟨Except.ok (), Except.ok ()⟩

/-- All storage calls succeed (filesystem). -/
def fseOk : FsEnv := ⟨Except.ok (), Except.ok (), Except.ok ()⟩

/-- Probe put succeeds, probe delete fails with a client error. -/
def s3eDeleteFails : S3Env :=
  ⟨Except.ok (), Except.error (PyError.clientError "AccessDenied")⟩

/-! ### Claims -/

/-- C8: for every millisecond timestamp and payload, the generated record
identifier is `<decimal ms>-<first 8 hex chars of the SHA-256 of the
compact payload bytes>.json`, and it matches the anchored pattern
`^\d+-[0-9a-f]\x7b8\x7d\.json$`.  Determinism for equal payload bytes and
equal millisecond timestamps is immediate: `make_name` is a pure function
of `ms` and the payload. -/
theorem make_name_format_and_pattern (ms : Nat) (p : Json) :
    make_name ms p =
      String.mk (natDecDigits ms ++ '-' ::
        ((sha256hex (utf8Encode (compact_json p))).take 8 ++ jsonSuffix)) ∧
    matchesNamePattern (make_name ms p) = true := by
  refine ⟨rfl, ?_⟩
  have hlen8 : ((sha256hex (utf8Encode (compact_json p))).take 8).length = 8 := by
    rw [List.length_take, sha256hex_length]
    omega
  have hsplit := takeWhile_dropWhile_split
    (natDecDigits ms) '-'
    ((sha256hex (utf8Encode (compact_json p))).take 8 ++ jsonSuffix)
    (natDecDigits_all_digits ms) (by decide)
  simp only [matchesNamePattern, make_name]
  rw [hsplit.1, hsplit.2]
  have hne := natDecDigits_ne_nil ms
  have htake := @List.take_left' Char
    ((sha256hex (utf8Encode (compact_json p))).take 8) jsonSuffix 8 hlen8
  have hdrop := @List.drop_left' Char
    ((sha256hex (utf8Encode (compact_json p))).take 8) jsonSuffix 8 hlen8
  simp only [htake, hdrop, hlen8]
  have hall : ((sha256hex (utf8Encode (compact_json p))).take 8).all
      isHexLowerChar = true := by
    rw [List.all_eq_true]
    intro c hc
    have hmem : c ∈ sha256hex (utf8Encode (compact_json p)) :=
      List.take_subset 8 _ hc
    unfold sha256hex at hmem
    exact bytesToHex_all_hex _ c hmem
  simp [hall, hne]

/-- C1: every authenticated request whose body parses as a JSON object
containing the key `locations` (and whose configured backend can accept a
write) stores exactly one record, byte-for-byte the compact JSON
serialization of the parsed payload, and is answered with status 200 and
the exact body `\x7b"result":"ok"\x7d` (the serialization of
`\x7b"result": "ok"\x7d` with no whitespace). -/
theorem handler_success_one_record (cfg : Config) (req : Req) (nowMs : Nat)
    (p : Json)
    (htc : token_check cfg req = true)
    (hac : auth_header_check cfg req = true)
    (hb : req.parsedBody = some p)
    (hl : isObjWithLocations p = true)
    (hbk : cfg.STORAGE_BACKEND = "s3" → truthyOpt cfg.S3_BUCKET = true) :
    (input_endpoint cfg req nowMs).1 = ⟨200, "\x7b\"result\":\"ok\"\x7d"⟩ ∧
    recordWrites (input_endpoint cfg req nowMs).2 = [compact_json p] := by
  have hv : validate_payload req.parsedBody = Except.ok p := by
    rw [hb]
    simp [validate_payload, hl]
  by_cases hS3 : cfg.STORAGE_BACKEND = "s3"
  · have hbk' := hbk hS3
    have hw : write_request cfg nowMs p =
        Except.ok (s3_write_request cfg nowMs p) := by
      simp [write_request, hS3, hbk']
    constructor
    · simp [input_endpoint, htc, hac, hv, hw]; rfl
    · simp [input_endpoint, htc, hac, hv, hw, s3_write_request, recordWrites]
  · have hw : write_request cfg nowMs p =
        Except.ok (fs_write_request cfg nowMs p) := by
      simp [write_request, hS3]
    constructor
    · simp [input_endpoint, htc, hac, hv, hw]; rfl
    · simp [input_endpoint, htc, hac, hv, hw, fs_write_request, recordWrites]

/-- Witness for C1 at a concrete configuration and request. -/
theorem handler_success_one_record_witness :
    (input_endpoint cfgFs reqOk 5).1 = ⟨200, "\x7b\"result\":\"ok\"\x7d"⟩ ∧
    recordWrites (input_endpoint cfgFs reqOk 5).2 = [compact_json pLoc] :=
  handler_success_one_record cfgFs reqOk 5 pLoc rfl rfl rfl rfl
    (fun h => absurd h (by decide))

/-- C5: every request the handler answers with 401 (denied authentication)
or 400 (rejected validation) performs zero storage operations — the
backend state is unchanged. -/
theorem denied_request_writes_nothing (cfg : Config) (req : Req) (nowMs : Nat)
    (h : (input_endpoint cfg req nowMs).1.status = 401 ∨
         (input_endpoint cfg req nowMs).1.status = 400) :
    (input_endpoint cfg req nowMs).2 = [] := by
  by_cases h1 : token_check cfg req
  · by_cases h2 : auth_header_check cfg req
    · cases hv : validate_payload req.parsedBody with
      | error e => simp [input_endpoint, h1, h2, hv]
      | ok payload =>
        cases hw : write_request cfg nowMs payload with
        | error e => simp [input_endpoint, h1, h2, hv, hw]
        | ok ops =>
          exfalso
          simp [input_endpoint, h1, h2, hv, hw] at h
    · simp [input_endpoint, h1, h2]
  · simp [input_endpoint, h1]

/-- Witness for C5: a concrete 401-denied request writes nothing. -/
theorem denied_request_writes_nothing_witness :
    (input_endpoint cfgNoTok reqOk 0).2 = [] :=
  denied_request_writes_nothing cfgNoTok reqOk 0 (Or.inl rfl)

/-- C6: when `INGEST_TOKEN` is unset, the handler denies every request
with 401 (and performs no writes), regardless of the presented query token
or `Authorization` header — an unconfigured token never means
"no auth required". -/
theorem unset_token_always_denies (cfg : Config) (req : Req) (nowMs : Nat)
    (h : cfg.TOKEN = none) :
    (input_endpoint cfg req nowMs).1 = ⟨401, "bad token"⟩ ∧
    (input_endpoint cfg req nowMs).2 = [] := by
  have htc : token_check cfg req = false := by simp [token_check, h]
  constructor <;> simp [input_endpoint, htc]

/-- Witness for C6: a request with a (vacuously) matching query token is
still denied when the token is unset. -/
theorem unset_token_always_denies_witness :
    (input_endpoint cfgNoTok reqOk 0).1 = ⟨401, "bad token"⟩ ∧
    (input_endpoint cfgNoTok reqOk 0).2 = [] :=
  unset_token_always_denies cfgNoTok reqOk 0 rfl

/-- C7: with a configured (truthy) ingest token, the handler lets a request
past authentication (that is, it does not answer 401) iff the
whitespace-trimmed query token is whole-string equal to the token and, for
any configured nonempty `AUTH_SECRET`, the whitespace-trimmed
`Authorization` header is whole-string equal to the raw secret or to
`"Bearer " + secret`.  Exact equality — no prefix or substring match — is
forced by the iff. -/
theorem auth_allows_iff_exact_match (cfg : Config) (req : Req) (nowMs : Nat)
    (t : String) (ht : cfg.TOKEN = some t) (hne : t ≠ "") :
    ((input_endpoint cfg req nowMs).1.status ≠ 401) ↔
      (pyStripWs (req.queryToken.getD "") = t ∧
        ∀ s, cfg.AUTH_SECRET = some s → s ≠ "" →
          (pyStripWs (req.authHeader.getD "") = s ∨
           pyStripWs (req.authHeader.getD "") = "Bearer " ++ s)) := by
  have hmain : ((input_endpoint cfg req nowMs).1.status ≠ 401) ↔
      (token_check cfg req = true ∧ auth_header_check cfg req = true) := by
    by_cases h1 : token_check cfg req
    · by_cases h2 : auth_header_check cfg req
      · cases hv : validate_payload req.parsedBody with
        | error e => simp [input_endpoint, h1, h2, hv]
        | ok payload =>
          cases hw : write_request cfg nowMs payload with
          | error e => simp [input_endpoint, h1, h2, hv, hw]
          | ok ops => simp [input_endpoint, h1, h2, hv, hw]
      · simp [input_endpoint, h1, h2]
    · simp [input_endpoint, h1]
  rw [hmain]
  have htok : token_check cfg req = true ↔
      pyStripWs (req.queryToken.getD "") = t := by
    simp [token_check, ht, hne]
  have hhdr : auth_header_check cfg req = true ↔
      (∀ s, cfg.AUTH_SECRET = some s → s ≠ "" →
        (pyStripWs (req.authHeader.getD "") = s ∨
         pyStripWs (req.authHeader.getD "") = "Bearer " ++ s)) := by
    cases hsec : cfg.AUTH_SECRET with
    | none => simp [auth_header_check, hsec]
    | some s =>
      by_cases hs : s = ""
      · subst hs
        simp [auth_header_check, hsec]
      · simp [auth_header_check, hsec, hs]
  rw [htok, hhdr]

/-- Witness for C7 at a concrete configuration with both secrets set and a
`Bearer` header presented. -/
theorem auth_allows_iff_exact_match_witness :
    ((input_endpoint cfgAuth reqAuth 0).1.status ≠ 401) ↔
      (pyStripWs (reqAuth.queryToken.getD "") = "tok" ∧
        ∀ s, cfgAuth.AUTH_SECRET = some s → s ≠ "" →
          (pyStripWs (reqAuth.authHeader.getD "") = s ∨
           pyStripWs (reqAuth.authHeader.getD "") = "Bearer " ++ s)) :=
  auth_allows_iff_exact_match cfgAuth reqAuth 0 "tok" rfl (by decide)

/-- A JSON object (dict) that does not contain the key `locations` —
the case C2 is about. -/
def isObjWithoutLocations : Json → Bool
  | Json.obj kvs => kvs.all (fun kv => !(kv.1 == "locations"))
  | _ => false

theorem isObjWithoutLocations_not_with (p : Json)
    (h : isObjWithoutLocations p = true) : isObjWithLocations p = false := by
  cases p with
  | obj kvs =>
    simp only [isObjWithoutLocations, List.all_eq_true] at h
    simp only [isObjWithLocations, List.any_eq_false]
    intro kv hkv
    have := h kv hkv
    simpa using this
  | null => rfl
  | bool b => rfl
  | num n => rfl
  | str s => rfl
  | arr xs => rfl

/-- C2 counterexample: for an authenticated request whose body is the JSON
object `\x7b"foo": null\x7d` (no `locations`), the handler's externally
visible rejection reason is `"invalid JSON"`, not the claimed distinct
`"missing locations"`; and conversely the internal `"missing locations"`
`ValueError` is also raised for non-object values such as `[]`, so it is
not distinct to objects lacking the key. -/
theorem missing_locations_reason_cex :
    (input_endpoint cfgFs reqNoLoc 0).1 = ⟨400, "invalid JSON"⟩ ∧
    ("invalid JSON" : String) ≠ "missing locations" ∧
    validate_payload (some (Json.arr [])) =
      Except.error (PyError.valueError "missing locations") :=
  ⟨rfl, by decide, rfl⟩

/-- C2 (amended): for every authenticated request whose body parses as a
JSON object lacking `locations`, the inline check raises
`ValueError("missing locations")` internally, but the `except Exception`
handler converts it — like every parse failure and non-object value — to
status 400 with detail `"invalid JSON"`; no write is performed.  The
distinct reason exists only internally and is also used for non-object
values. -/
theorem missing_locations_maps_to_invalid_json (cfg : Config) (req : Req)
    (nowMs : Nat) (p : Json)
    (htc : token_check cfg req = true)
    (hac : auth_header_check cfg req = true)
    (hb : req.parsedBody = some p)
    (hobj : isObjWithoutLocations p = true) :
    validate_payload req.parsedBody =
      Except.error (PyError.valueError "missing locations") ∧
    (input_endpoint cfg req nowMs).1 = ⟨400, "invalid JSON"⟩ ∧
    (input_endpoint cfg req nowMs).2 = [] := by
  have hv : validate_payload req.parsedBody =
      Except.error (PyError.valueError "missing locations") := by
    rw [hb]
    simp [validate_payload, isObjWithoutLocations_not_with p hobj]
  refine ⟨hv, ?_, ?_⟩ <;> simp [input_endpoint, htc, hac, hv]

/-- Witness for the amended C2 at a concrete request. -/
theorem missing_locations_maps_to_invalid_json_witness :
    validate_payload reqNoLoc.parsedBody =
      Except.error (PyError.valueError "missing locations") ∧
    (input_endpoint cfgFs reqNoLoc 0).1 = ⟨400, "invalid JSON"⟩ ∧
    (input_endpoint cfgFs reqNoLoc 0).2 = [] :=
  missing_locations_maps_to_invalid_json cfgFs reqNoLoc 0 pNoLoc rfl rfl rfl rfl

/-- C3 counterexample: the configured value `object-storage` survives
`strip().lower()` unchanged, is not equal to the selector value `"s3"`
checked by `write_request`, and therefore routes every record write
through the filesystem branch — not the object-storage put path. -/
theorem object_storage_value_selects_filesystem_cex :
    resolve_backend (some "object-storage") = "object-storage" ∧
    cfgObjStorage.STORAGE_BACKEND ≠ "s3" ∧
    write_request cfgObjStorage 0 pLoc =
      Except.ok (fs_write_request cfgObjStorage 0 pLoc) ∧
    usesS3 (fs_write_request cfgObjStorage 0 pLoc) = false ∧
    usesFs (fs_write_request cfgObjStorage 0 pLoc) = true :=
  ⟨by decide, by decide, rfl, rfl, rfl⟩

/-- C3 (amended): the selector value recognized by the code is `s3`, not
`object-storage`: with `STORAGE_BACKEND = "s3"` and a truthy bucket every
record write goes through the object-storage put path and never the
filesystem path, while a missing `STORAGE_BACKEND` defaults to
`filesystem` (and any unrecognized value, including `object-storage`,
also takes the filesystem branch). -/
theorem s3_value_selects_object_storage (cfg : Config) (p : Json) (nowMs : Nat)
    (hb : cfg.STORAGE_BACKEND = "s3")
    (hk : truthyOpt cfg.S3_BUCKET = true) :
    write_request cfg nowMs p = Except.ok (s3_write_request cfg nowMs p) ∧
    usesS3 (s3_write_request cfg nowMs p) = true ∧
    usesFs (s3_write_request cfg nowMs p) = false ∧
    resolve_backend none = "filesystem" := by
  refine ⟨?_, rfl, rfl, by decide⟩
  simp [write_request, hb, hk]

/-- Witness for the amended C3 at a concrete `s3` configuration. -/
theorem s3_value_selects_object_storage_witness :
    write_request cfgS3 0 pLoc = Except.ok (s3_write_request cfgS3 0 pLoc) ∧
    usesS3 (s3_write_request cfgS3 0 pLoc) = true ∧
    usesFs (s3_write_request cfgS3 0 pLoc) = false ∧
    resolve_backend none = "filesystem" :=
  s3_value_selects_object_storage cfgS3 pLoc 0 rfl rfl

/-- C4 counterexample: in the object-storage branch the `try` block spans
both the probe put and the probe delete and the `except` handler
re-raises, so a delete failure after a successful put makes the startup
health check fail — it is fatal, contrary to the claim. -/
theorem healthcheck_delete_failure_fatal_cex :
    startup_write_check cfgS3 s3eDeleteFails fseOk =
      Except.error (PyError.clientError "AccessDenied") := rfl

/-- C4 (amended): a probe-write failure is fatal for both backends; a
probe-removal failure is also fatal in the object-storage branch, and in
the filesystem branch removal failure is non-fatal exactly when it is
`FileNotFoundError` (any other removal error propagates). -/
theorem healthcheck_failure_propagation (cfg : Config) (s3e : S3Env)
    (fse : FsEnv) (e : PyError) :
    (cfg.STORAGE_BACKEND = "s3" → truthyOpt cfg.S3_BUCKET = true →
      ((s3e.putResult = Except.error e →
          startup_write_check cfg s3e fse = Except.error e) ∧
       (s3e.putResult = Except.ok () → s3e.deleteResult = Except.error e →
          startup_write_check cfg s3e fse = Except.error e))) ∧
    (cfg.STORAGE_BACKEND ≠ "s3" →
      ((fse.mkdirResult = Except.ok () → fse.writeResult = Except.error e →
          startup_write_check cfg s3e fse = Except.error e) ∧
       (fse.mkdirResult = Except.ok () → fse.writeResult = Except.ok () →
          fse.unlinkResult = Except.error PyError.fileNotFoundError →
          startup_write_check cfg s3e fse = Except.ok ()) ∧
       (fse.mkdirResult = Except.ok () → fse.writeResult = Except.ok () →
          fse.unlinkResult = Except.error e → e ≠ PyError.fileNotFoundError →
          startup_write_check cfg s3e fse = Except.error e))) := by
  constructor
  · intro hb hk
    constructor
    · intro hput
      simp [startup_write_check, hb, hk, hput]
    · intro hput hdel
      simp [startup_write_check, hb, hk, hput, hdel]
  · intro hb
    refine ⟨?_, ?_, ?_⟩
    · intro h1 h2
      simp [startup_write_check, hb, h1, h2]
    · intro h1 h2 h3
      simp [startup_write_check, hb, h1, h2, h3]
    · intro h1 h2 h3 h4
      cases e with
      | fileNotFoundError => exact absurd rfl h4
      | jsonDecodeError => simp [startup_write_check, hb, h1, h2, h3]
      | valueError m => simp [startup_write_check, hb, h1, h2, h3]
      | runtimeError m => simp [startup_write_check, hb, h1, h2, h3]
      | ioError m => simp [startup_write_check, hb, h1, h2, h3]
      | clientError m => simp [startup_write_check, hb, h1, h2, h3]

/-- Witness for the amended C4: a concrete fatal put failure on the
object-storage branch, and a concrete non-fatal `FileNotFoundError`
removal on the filesystem branch. -/
theorem healthcheck_failure_propagation_witness :
    startup_write_check cfgS3
      ⟨Except.error (PyError.clientError "boom"), Except.ok ()⟩ fseOk =
      Except.error (PyError.clientError "boom") ∧
    startup_write_check cfgFs s3eOk
      ⟨Except.ok (), Except.ok (), Except.error PyError.fileNotFoundError⟩ =
      Except.ok () := by
  constructor
  · exact ((healthcheck_failure_propagation cfgS3
      ⟨Except.error (PyError.clientError "boom"), Except.ok ()⟩ fseOk
      (PyError.clientError "boom")).1 rfl rfl).1 rfl
  · exact ((healthcheck_failure_propagation cfgFs s3eOk
      ⟨Except.ok (), Except.ok (), Except.error PyError.fileNotFoundError⟩
      (PyError.clientError "boom")).2 (by decide)).2.1 rfl rfl rfl

/-- C9: with the object-storage backend selected and no bucket configured,
the startup hook raises the fatal `RuntimeError` before any probe I/O, so
the process never reaches the request-serving state (per the FastAPI
lifecycle contract modelled by `reaches_serving`). -/
theorem s3_without_bucket_fails_startup (cfg : Config) (s3e : S3Env)
    (fse : FsEnv)
    (hb : cfg.STORAGE_BACKEND = "s3")
    (hk : truthyOpt cfg.S3_BUCKET = false) :
    on_startup cfg s3e fse =
      Except.error (PyError.runtimeError "S3_BUCKET not set for s3 backend") ∧
    reaches_serving cfg s3e fse = false := by
  have h : startup_write_check cfg s3e fse =
      Except.error (PyError.runtimeError "S3_BUCKET not set for s3 backend") := by
    simp [startup_write_check, hb, hk]
  exact ⟨h, by simp [reaches_serving, on_startup, h]⟩

/-- Witness for C9 at a concrete bucket-less `s3` configuration. -/
theorem s3_without_bucket_fails_startup_witness :
    on_startup cfgS3NoBucket s3eOk fseOk =
      Except.error (PyError.runtimeError "S3_BUCKET not set for s3 backend") ∧
    reaches_serving cfgS3NoBucket s3eOk fseOk = false :=
  s3_without_bucket_fails_startup cfgS3NoBucket s3eOk fseOk rfl rfl

/-- A string consisting only of whitespace (vacuously true for `""`). -/
def wsOnly (s : String) : Bool := s.data.all Char.isWhitespace

/-- A string consisting only of `/` characters (vacuously true for `""`). -/
def slashOnly (s : String) : Bool := s.data.all (fun c => c == '/')

/-- C10 counterexample: the raw value `" / "` (a mix of whitespace
and slashes) is neither empty, whitespace-only, nor slashes-only, yet it
strips to the empty namespace, so the computed key is `requests/<name>`
and not `<stripped>/requests/<name>` (which would be the slash-leading
`/requests/<name>`) as the claim's case split asserts. -/
theorem pfx_mixed_ws_slash_cex :
    ¬((" / " : String) = "" ∨ wsOnly " / " = true ∨ slashOnly " / " = true) ∧
    resolve_pfx (some " / ") = "" ∧
    s3_key_for (resolve_pfx (some " / ")) "x.json" = "requests/x.json" ∧
    resolve_pfx (some " / ") ++ "/" ++ ("requests/" ++ "x.json") =
      "/requests/x.json" ∧
    s3_key_for (resolve_pfx (some " / ")) "x.json" ≠
      resolve_pfx (some " / ") ++ "/" ++ ("requests/" ++ "x.json") := by
  refine ⟨by decide, by decide, by decide, by decide, by decide⟩

/-- C10 (amended): for every raw prefix value, the stripped namespace
never begins or ends with `/`, so the computed object key never begins
with `/` and never has an empty path segment at the namespace boundary:
when the raw value strips to empty (in particular when it is empty,
whitespace-only, slashes-only, or any mix of whitespace and slashes) the
key is exactly `requests/<name>`, and when the stripped value is nonempty
the key is `<stripped>/requests/<name>`. -/
theorem s3_key_structure (raw : Option String) (name : String) :
    (resolve_pfx raw = "" →
        s3_key_for (resolve_pfx raw) name = "requests/" ++ name) ∧
    (resolve_pfx raw ≠ "" →
        s3_key_for (resolve_pfx raw) name =
          resolve_pfx raw ++ "/" ++ ("requests/" ++ name) ∧
        (∀ c, (resolve_pfx raw).data.head? = some c → c ≠ '/') ∧
        (∀ c, (resolve_pfx raw).data.getLast? = some c → c ≠ '/')) ∧
    (∀ c, (s3_key_for (resolve_pfx raw) name).data.head? = some c → c ≠ '/') := by
  have hhead : ∀ c, (resolve_pfx raw).data.head? = some c → c ≠ '/' := by
    intro c hc
    have := stripList_head (fun c => c == '/') _ c hc
    simpa using this
  have hlast : ∀ c, (resolve_pfx raw).data.getLast? = some c → c ≠ '/' := by
    intro c hc
    have := stripList_last (fun c => c == '/') _ c hc
    simpa using this
  by_cases h : resolve_pfx raw = ""
  · refine ⟨fun _ => by simp [s3_key_for, h], fun hne => absurd h hne, ?_⟩
    intro c hc
    simp only [s3_key_for, h, if_pos] at hc
    rw [String.data_append] at hc
    have hr : (("requests/" : String).data ++ name.data).head? = some 'r' := rfl
    rw [hr] at hc
    simp only [Option.some.injEq] at hc
    subst hc
    decide
  · have hne : (resolve_pfx raw).data ≠ [] := fun hnil => h (String.ext hnil)
    refine ⟨fun he => absurd he h,
            fun _ => ⟨by simp [s3_key_for, h], hhead, hlast⟩, ?_⟩
    intro c hc
    simp only [s3_key_for, if_neg h] at hc
    cases hd : (resolve_pfx raw).data with
    | nil => exact absurd hd hne
    | cons a t =>
      rw [String.data_append, String.data_append, hd] at hc
      simp only [List.cons_append, List.head?_cons, Option.some.injEq] at hc
      subst hc
      exact hhead a (by rw [hd]; rfl)

/-- Witness for the amended C10 at the raw value `" /a/b/ "`, which strips
to the nonempty namespace `a/b`. -/
theorem s3_key_structure_witness :
    resolve_pfx (some " /a/b/ ") ≠ "" ∧
    s3_key_for (resolve_pfx (some " /a/b/ ")) "x.json" =
      resolve_pfx (some " /a/b/ ") ++ "/" ++ ("requests/" ++ "x.json") := by
  constructor
  · decide
  · exact ((s3_key_structure (some " /a/b/ ") "x.json").2.1 (by decide)).1

end Overland

